import Mathlib

/-!
Shallow embedding of the bookstore admin backend
(`src/database.py`, `src/schemas.py`, `src/main.py`).

Modelling conventions:
* Python floats are modelled as rationals (`ℚ`); every numeric value in the
  spec's examples is exactly representable in binary floating point, so the
  arithmetic the claims mention is exact in both models.
* UTC timestamps are modelled as naturals passed explicitly to each operation
  (`datetime.now(timezone.utc)` becomes a `Time` parameter).
* A Mongo collection is a list of stored documents in insertion order;
  `find_one`/`update_one`/`delete_one` act on the first match, and `_id`
  values are unique in any store the system builds.
* A bson `ObjectId` is modelled by its canonical 24-character lowercase hex
  string; `ObjectId(s)` accepts 24 hex characters of either case and
  normalises, anything else raises `bson.errors.InvalidId`.
* Python exceptions escaping a handler are modelled by `PyError`; FastAPI
  turns an `HTTPException` into its status code and anything else
  (pydantic `ValidationError`, bson `InvalidId`, `TypeError`) into an
  HTTP 500 server error.
* The pydantic `EmailStr` grammar is an external library; it is abstracted
  as an `emailOk : String → Bool` parameter of order creation.
* `jwt.encode` signing is an external collaborator; the token is modelled by
  the claims map it signs (`sub`, `role`).
-/

namespace Bookstore

/-- Timestamps (UTC instants) are modelled as naturals. -/
abbrev Time := Nat

/-- Hex-digit test used by the bson ObjectId string format. -/
def isHexChar (c : Char) : Bool :=
  c.isDigit || ('a' ≤ c && c ≤ 'f') || ('A' ≤ c && c ≤ 'F')

/-- A string is a valid ObjectId literal iff it is 24 hex characters. -/
def isValidOidString (s : String) : Bool :=
  s.length == 24 && s.data.all isHexChar

/-- Lowercasing of a hex string (bson normalises ObjectId hex to lowercase). -/
def lowerStr (s : String) : String :=
  String.mk (s.data.map Char.toLower)

/-- bson `ObjectId(s)`: returns the canonical id on a valid 24-hex-char
string, and raises `InvalidId` (here: `none`) otherwise. -/
def parseObjectId (s : String) : Option String :=
  if isValidOidString s then some (lowerStr s) else none

/-- A canonical id string, as produced by `str(ObjectId(...))`: parsing it
gives back itself. -/
abbrev IsCanonicalOid (s : String) : Prop :=
  parseObjectId s = some s

/-- A persisted document: `_id`, the entity payload, and the two timestamps
stamped by the Document Store Adapter. -/
structure Stored (α : Type) where
  oid : String
  data : α
  created_at : Time
  updated_at : Time
deriving DecidableEq

/-- A named collection is a list of stored documents in insertion order. -/
abbrev Collection (α : Type) := List (Stored α)

/-- Outcomes of a request handler that did not return normally.
`httpEx` is a raised `fastapi.HTTPException`; `validationError` is an
uncaught pydantic `ValidationError`; `invalidIdError` is an uncaught
`bson.errors.InvalidId`; `typeError` is an uncaught `TypeError`.  FastAPI
surfaces the latter three as HTTP 500 server errors. -/
inductive PyError where
  | httpEx (status : Nat) (detail : String)
  | validationError
  | invalidIdError
  | typeError
deriving DecidableEq

/-- An error is client-facing (4xx) only when it is a raised HTTPException
with a 4xx status; uncaught exceptions surface as 500 server errors. -/
def PyError.isClientError : PyError → Bool
  | .httpEx s _ => 400 ≤ s && s < 500
  | _ => false

/-- Decidable equality for `Except`, used to evaluate handler results on
concrete inputs. -/
instance [DecidableEq e] [DecidableEq a] : DecidableEq (Except e a) := fun x y =>
  match x, y with
  | .ok v, .ok w =>
    if h : v = w then isTrue (by rw [h]) else isFalse (by intro hc; cases hc; exact h rfl)
  | .error v, .error w =>
    if h : v = w then isTrue (by rw [h]) else isFalse (by intro hc; cases hc; exact h rfl)
  | .ok _, .error _ => isFalse (by intro hc; cases hc)
  | .error _, .ok _ => isFalse (by intro hc; cases hc)

/-! ## src/database.py -/

/-- database.py `create_document`: stamp `created_at` and `updated_at` with
the same current instant, insert, return the new id string.  The fresh
store-generated `_id` is a parameter. -/
def create_document (coll : Collection α) (data : α) (freshOid : String)
    (t : Time) : String × Collection α :=
  (freshOid, coll ++ [⟨freshOid, data, t, t⟩])

/-- Mongo `find_one({"_id": oid})`: first document with the given id. -/
def find_one (coll : Collection α) (oid : String) : Option (Stored α) :=
  match coll with
  | [] => none
  | s :: rest => if s.oid == oid then some s else find_one rest oid

/-- database.py `get_document_by_id`: parse the id string; a parse failure is
caught by the `try/except` and returned as `None`. -/
def get_document_by_id (coll : Collection α) (doc_id : String) :
    Option (Stored α) :=
  match parseObjectId doc_id with
  | none => none
  | some oid => find_one coll oid

/-- Mongo `update_one` document rewrite: apply `f` to the first document
whose `_id` matches. -/
def setFirst (oid : String) (f : Stored α → Stored α) :
    Collection α → Collection α
  | [] => []
  | s :: rest =>
    if s.oid == oid then f s :: rest else s :: setFirst oid f rest

/-- database.py `update_document`: `ObjectId(doc_id)` raises (uncaught) on a
malformed id; otherwise `$set` the supplied fields plus a refreshed
`updated_at`, and report `modified_count > 0` — Mongo counts the document as
modified only when the `$set` actually changed it. -/
def update_document [DecidableEq α] (coll : Collection α) (doc_id : String)
    (setter : α → α) (t : Time) : Except PyError (Bool × Collection α) :=
  match parseObjectId doc_id with
  | none => .error .invalidIdError
  | some oid =>
    let apply := fun (s : Stored α) =>
      { s with data := setter s.data, updated_at := t }
    let modified := match find_one coll oid with
      | some s => decide (¬ (apply s = s))
      | none => false
    .ok (modified, setFirst oid apply coll)

/-- Mongo `delete_one` document removal: drop the first document whose
`_id` matches. -/
def deleteFirst (oid : String) : Collection α → Collection α
  | [] => []
  | s :: rest => if s.oid == oid then rest else s :: deleteFirst oid rest

/-- database.py `delete_document`: `ObjectId(doc_id)` raises (uncaught) on a
malformed id; otherwise delete the matching document and report
`deleted_count > 0`. -/
def delete_document (coll : Collection α) (doc_id : String) :
    Except PyError (Bool × Collection α) :=
  match parseObjectId doc_id with
  | none => .error .invalidIdError
  | some oid =>
    .ok ((find_one coll oid).isSome, deleteFirst oid coll)

/-! ## src/schemas.py -/

/-- schemas.py `OrderItem`. -/
structure OrderItem where
  book_id : String
  title : String
  price : ℚ
  quantity : Int
deriving DecidableEq

/-- The `Field` constraints on `OrderItem` (`price ≥ 0`, `quantity ≥ 1`),
enforced by FastAPI when the request body is parsed. -/
def OrderItem.validItem (i : OrderItem) : Prop :=
  0 ≤ i.price ∧ 1 ≤ i.quantity

/-- schemas.py `Order`. -/
structure Order where
  customer_name : String
  customer_email : String
  items : List OrderItem
  total_amount : ℚ
  status : String
  notes : Option String
deriving DecidableEq

/-- The five order statuses of the `Literal` type in schemas.py and of the
`allowed` set in `update_order_status`. -/
def allowedStatuses : List String :=
  ["pending", "processing", "shipped", "delivered", "cancelled"]

/-- Pydantic validation run by the `Order(...)` constructor: `customer_email`
must satisfy the `EmailStr` grammar (abstracted as `emailOk`), `items` is a
`conlist` with `min_length=1`, `total_amount` has `ge=0`, and `status` is one
of the five literals.  Nested `OrderItem` instances are not re-validated
(pydantic's default for model instances). -/
def Order.validate (emailOk : String → Bool) (o : Order) : Bool :=
  emailOk o.customer_email && decide (1 ≤ o.items.length) &&
    decide (0 ≤ o.total_amount) && allowedStatuses.contains o.status

/-- schemas.py `Book`. -/
structure Book where
  title : String
  author : String
  price : ℚ
  stock : Int
  description : Option String
  cover_url : Option String
deriving DecidableEq

/-- schemas.py `AdminUser` (the shape of documents in "adminuser"). -/
structure AdminUserDoc where
  name : String
  email : String
  password_hash : String
  role : String
  is_active : Bool
deriving DecidableEq

/-! ## src/main.py — auth -/

/-- main.py `AdminProfile`, the public profile model: exactly the fields
`id`, `name`, `email`, `role`. -/
structure AdminProfile where
  id : String
  name : String
  email : String
  role : String
deriving DecidableEq

/-- The claims map passed to `create_access_token`: `sub` is the user id
string, `role` the user's role. -/
structure TokenData where
  sub : String
  role : String
deriving DecidableEq

/-- main.py `create_access_token`: `jwt.encode` signs the claims map with
the secret key; the signing primitive is an external collaborator, so the
token is modelled by the claims it binds. -/
def create_access_token (data : TokenData) : TokenData :=
  data

/-- main.py `LoginResponse`. -/
structure LoginResponse where
  token : TokenData
  profile : AdminProfile
deriving DecidableEq

/-- Mongo `find_one({"email": email})` on the "adminuser" collection. -/
def find_one_by_email (admins : Collection AdminUserDoc) (email : String) :
    Option (Stored AdminUserDoc) :=
  admins.find? (fun u => u.data.email == email)

/-- main.py `admin_login`: look the user up by email; 401 if absent or the
password does not verify against the stored hash; then 403 if inactive; then
403 if the role is not admin/staff; otherwise a token binding `sub` (the id
string) and `role`, plus the public profile.  `pwd_context.verify` is the
external hashing primitive, passed as `verify`. -/
def admin_login (verify : String → String → Bool)
    (admins : Collection AdminUserDoc) (email password : String) :
    Except PyError LoginResponse :=
  match find_one_by_email admins email with
  | none => .error (.httpEx 401 "Invalid credentials")
  | some user =>
    if !(verify password user.data.password_hash) then
      .error (.httpEx 401 "Invalid credentials")
    else if !user.data.is_active then
      .error (.httpEx 403 "User is inactive")
    else if !(["admin", "staff"].contains user.data.role) then
      .error (.httpEx 403 "Unauthorized role")
    else
      .ok { token := create_access_token ⟨user.oid, user.data.role⟩,
            profile := ⟨user.oid, user.data.name, user.data.email,
                        user.data.role⟩ }

/-! ## src/main.py — dashboard -/

/-- main.py `DashboardStats`. -/
structure DashboardStats where
  total_books : Nat
  total_orders : Nat
  pending_orders : Nat
  revenue : ℚ
deriving DecidableEq

/-- The aggregation pipeline in `get_admin_stats`: `$match` status ≠
"cancelled", `$group` summing `total_amount`.  A `$group` over no input
documents produces no output rows (`none`). -/
def aggRevenueSum (orders : Collection Order) : Option ℚ :=
  let matched := orders.filter (fun o => !(o.data.status == "cancelled"))
  if matched.isEmpty then none
  else some ((matched.map (fun o => o.data.total_amount)).sum)

/-- main.py `get_admin_stats`: counts plus
`revenue = float(agg[0]["sum"]) if agg else 0.0`. -/
def get_admin_stats (books : Collection Book) (orders : Collection Order) :
    DashboardStats :=
  { total_books := books.length,
    total_orders := orders.length,
    pending_orders :=
      (orders.filter (fun o => o.data.status == "pending")).length,
    revenue := (aggRevenueSum orders).getD 0 }

/-! ## src/main.py — books -/

/-- main.py `BookUpdate`: every field optional. -/
structure BookUpdate where
  title : Option String
  author : Option String
  price : Option ℚ
  stock : Option Int
  description : Option String
  cover_url : Option String
deriving DecidableEq

/-- The `$set` document built by `update_book`:
`{k: v for k, v in payload.model_dump().items() if v is not None}` — fields
present in the partial overwrite the stored ones, absent fields are left
untouched. -/
def BookUpdate.applyTo (p : BookUpdate) (b : Book) : Book :=
  { title := p.title.getD b.title,
    author := p.author.getD b.author,
    price := p.price.getD b.price,
    stock := p.stock.getD b.stock,
    description := match p.description with
      | some v => some v
      | none => b.description,
    cover_url := match p.cover_url with
      | some v => some v
      | none => b.cover_url }

/-- main.py `update_book`: `update_document`, 404 "Book not found or no
changes" when nothing was modified, then re-read the document and return it
(`doc["id"] = str(doc.pop("_id"))`; a `None` read would raise a
`TypeError`). -/
def update_book (books : Collection Book) (book_id : String)
    (payload : BookUpdate) (t : Time) :
    Except PyError (Stored Book) × Collection Book :=
  match update_document books book_id payload.applyTo t with
  | .error e => (.error e, books)
  | .ok (false, books') =>
    (.error (.httpEx 404 "Book not found or no changes"), books')
  | .ok (true, books') =>
    match get_document_by_id books' book_id with
    | some doc => (.ok doc, books')
    | none => (.error .typeError, books')

/-! ## src/main.py — orders -/

/-- main.py `OrderCreate` (the request body): plain strings and a plain
list, so an empty list or a malformed email passes request parsing. -/
structure OrderCreate where
  customer_name : String
  customer_email : String
  items : List OrderItem
  notes : Option String
deriving DecidableEq

/-- main.py `create_order`: compute the total as the sum of
`price * quantity` over the items, build an `Order` with status "pending"
(pydantic validation may raise here, uncaught), persist it, re-read it and
return it. -/
def create_order (emailOk : String → Bool) (orders : Collection Order)
    (payload : OrderCreate) (freshOid : String) (t : Time) :
    Except PyError (Stored Order) × Collection Order :=
  let total := (payload.items.map (fun i => i.price * (i.quantity : ℚ))).sum
  let order : Order :=
    ⟨payload.customer_name, payload.customer_email, payload.items, total,
     "pending", payload.notes⟩
  if order.validate emailOk then
    let r := create_document orders order freshOid t
    match get_document_by_id r.2 r.1 with
    | some doc => (.ok doc, r.2)
    | none => (.error .typeError, r.2)
  else
    (.error .validationError, orders)

/-- main.py `update_order_status`: reject a status outside the allowed set
with a 400 before touching the store; otherwise `update_document`, 404 when
nothing was modified, then re-read and return the document. -/
def update_order_status (orders : Collection Order) (order_id : String)
    (status : String) (t : Time) :
    Except PyError (Stored Order) × Collection Order :=
  if allowedStatuses.contains status then
    match update_document orders order_id
        (fun o => { o with status := status }) t with
    | .error e => (.error e, orders)
    | .ok (false, orders') =>
      (.error (.httpEx 404 "Order not found"), orders')
    | .ok (true, orders') =>
      match get_document_by_id orders' order_id with
      | some doc => (.ok doc, orders')
      | none => (.error .typeError, orders')
  else
    (.error (.httpEx 400 "Invalid status"), orders)

/-! ## Generic store steps (for the timestamp invariant) -/

/-- One Document Store Adapter operation, with its wall-clock instant. -/
inductive DbOp (α : Type) where
  | create (data : α) (freshOid : String) (t : Time)
  | update (doc_id : String) (setter : α → α) (t : Time)
  | delete (doc_id : String)

/-- The effect of one adapter operation on the collection (an uncaught
exception leaves the store untouched). -/
def DbOp.applyOp [DecidableEq α] : DbOp α → Collection α → Collection α
  | .create d oid t, coll => (create_document coll d oid t).2
  | .update doc_id f t, coll =>
    match update_document coll doc_id f t with
    | .ok r => r.2
    | .error _ => coll
  | .delete doc_id, coll =>
    match delete_document coll doc_id with
    | .ok r => r.2
    | .error _ => coll

/-- The documents' timestamp invariant: `created_at ≤ updated_at`. -/
def TimestampInv (coll : Collection α) : Prop :=
  ∀ s ∈ coll, s.created_at ≤ s.updated_at

/-- The wall clock at an operation does not predate the creation instant of
any document already in the store. -/
def DbOp.timeOK : DbOp α → Collection α → Prop
  | .create _ _ _, _ => True
  | .update _ _ t, coll => ∀ s ∈ coll, s.created_at ≤ t
  | .delete _, _ => True

/-! ## Store lemmas -/

/-- Rewriting the first match leaves lookup pointing at the rewritten
document, provided the rewrite keeps the id. -/
theorem find_one_setFirst (coll : Collection a) (oid : String)
    (f : Stored a → Stored a) (hpres : ∀ s, (f s).oid = s.oid) :
    find_one (setFirst oid f coll) oid = (find_one coll oid).map f := by
  induction coll with
  | nil => rfl
  | cons s rest ih =>
    by_cases h : s.oid = oid
    · simp [find_one, setFirst, h, hpres]
    · simpa [find_one, setFirst, h] using ih

/-- Looking a freshly appended document up by its id finds it, provided no
earlier document carries the same id. -/
theorem find_one_append (coll : Collection a) (d : Stored a)
    (hfresh : ∀ s ∈ coll, s.oid ≠ d.oid) :
    find_one (coll ++ [d]) d.oid = some d := by
  induction coll with
  | nil => simp [find_one]
  | cons s rest ih =>
    have hs : s.oid ≠ d.oid := hfresh s (by simp)
    have hrest := ih (fun x hx => hfresh x (by simp [hx]))
    simpa [find_one, hs] using hrest

/-- Every document of the rewritten store is an original document or the
image of an original document. -/
theorem mem_setFirst (coll : Collection a) (oid : String)
    (f : Stored a → Stored a) (x : Stored a) (hx : x ∈ setFirst oid f coll) :
    x ∈ coll ∨ ∃ s ∈ coll, x = f s := by
  induction coll with
  | nil => simp [setFirst] at hx
  | cons s rest ih =>
    by_cases h : s.oid = oid
    · simp only [setFirst, h, beq_self_eq_true, if_true] at hx
      rcases List.mem_cons.mp hx with h1 | h1
      · exact Or.inr ⟨s, by simp, h1⟩
      · exact Or.inl (by simp [h1])
    · rw [setFirst, if_neg (by simpa using h)] at hx
      rcases List.mem_cons.mp hx with h1 | h1
      · exact Or.inl (by simp [h1])
      · rcases ih h1 with h2 | ⟨u, hu, h2⟩
        · exact Or.inl (List.mem_cons_of_mem _ h2)
        · exact Or.inr ⟨u, List.mem_cons_of_mem _ hu, h2⟩

/-! ## C1 -/

/-- C1: for every order creation request (well-formed items, an email the
validator accepts, a fresh canonical store id), the operation persists and
returns exactly one order document whose `total_amount` is the exact sum of
`price * quantity` over the items, whose status is `"pending"`, and whose
two timestamps are the creation instant. -/
theorem c1_create_order_total (emailOk : String → Bool)
    (orders : Collection Order) (payload : OrderCreate) (freshOid : String)
    (t : Time)
    (hitems : ∀ i ∈ payload.items, i.validItem)
    (hne : payload.items ≠ [])
    (hemail : emailOk payload.customer_email = true)
    (hcanon : IsCanonicalOid freshOid)
    (hfresh : ∀ s ∈ orders, s.oid ≠ freshOid) :
    create_order emailOk orders payload freshOid t =
      (.ok ⟨freshOid,
        ⟨payload.customer_name, payload.customer_email, payload.items,
          (payload.items.map (fun i => i.price * (i.quantity : ℚ))).sum,
          "pending", payload.notes⟩, t, t⟩,
       orders ++ [⟨freshOid,
        ⟨payload.customer_name, payload.customer_email, payload.items,
          (payload.items.map (fun i => i.price * (i.quantity : ℚ))).sum,
          "pending", payload.notes⟩, t, t⟩]) := by
  have hlen : 1 ≤ payload.items.length := List.length_pos.mpr hne
  have htot :
      0 ≤ (payload.items.map (fun i => i.price * (i.quantity : ℚ))).sum := by
    refine List.sum_nonneg ?_
    intro x hx
    obtain ⟨i, hi, rfl⟩ := List.mem_map.mp hx
    have h1 := (hitems i hi).1
    have h2 : (0 : ℚ) ≤ (i.quantity : ℚ) := by
      exact_mod_cast le_trans zero_le_one (hitems i hi).2
    exact mul_nonneg h1 h2
  have hval :
      Order.validate emailOk
        ⟨payload.customer_name, payload.customer_email, payload.items,
          (payload.items.map (fun i => i.price * (i.quantity : ℚ))).sum,
          "pending", payload.notes⟩ = true := by
    simp [Order.validate, allowedStatuses, hemail, hlen, htot]
  have hparse : parseObjectId freshOid = some freshOid := hcanon
  have hfind :
      find_one (orders ++
          [(⟨freshOid,
            ⟨payload.customer_name, payload.customer_email, payload.items,
              (payload.items.map (fun i => i.price * (i.quantity : ℚ))).sum,
              "pending", payload.notes⟩, t, t⟩ : Stored Order)]) freshOid =
        some ⟨freshOid,
          ⟨payload.customer_name, payload.customer_email, payload.items,
            (payload.items.map (fun i => i.price * (i.quantity : ℚ))).sum,
            "pending", payload.notes⟩, t, t⟩ :=
    find_one_append orders _ hfresh
  simp [create_order, hval, create_document, get_document_by_id, hparse,
    hfind]

/-- C1 witness: the spec example — items priced 10.0 x2 and 5.5 x1 yield a
persisted total of 25.5 with status pending. -/
theorem c1_witness :
    create_order (fun _ => true) []
        ⟨"Alice", "alice@example.com",
          [⟨"b1", "Book A", 10, 2⟩, ⟨"b2", "Book B", 5.5, 1⟩], none⟩
        "0123456789abcdef01234567" 7 =
      (.ok ⟨"0123456789abcdef01234567",
        ⟨"Alice", "alice@example.com",
          [⟨"b1", "Book A", 10, 2⟩, ⟨"b2", "Book B", 5.5, 1⟩], 25.5,
          "pending", none⟩, 7, 7⟩,
       [⟨"0123456789abcdef01234567",
        ⟨"Alice", "alice@example.com",
          [⟨"b1", "Book A", 10, 2⟩, ⟨"b2", "Book B", 5.5, 1⟩], 25.5,
          "pending", none⟩, 7, 7⟩]) := by
  have h :=
    c1_create_order_total (fun _ => true) []
      ⟨"Alice", "alice@example.com",
        [⟨"b1", "Book A", 10, 2⟩, ⟨"b2", "Book B", 5.5, 1⟩], none⟩
      "0123456789abcdef01234567" 7
      (by intro i hi
          simp only [List.mem_cons, List.not_mem_nil, or_false] at hi
          rcases hi with rfl | rfl <;>
            exact ⟨by norm_num, by norm_num⟩)
      (by simp) rfl (by decide) (by simp)
  rw [h]
  norm_num

/-! ## C2 -/

/-- C2 counterexample: on the malformed id "bad-id", `get_document_by_id`
does return the swallowed "not found" (`None`), but `update_document` and
`delete_document` let the `bson.errors.InvalidId` parse error escape to the
caller instead of returning the `False` "not found" result, refuting the
claim for those two operations. -/
theorem c2_counterexample :
    get_document_by_id ([] : Collection Book) "bad-id" = none ∧
    update_document ([] : Collection Book) "bad-id" (fun b => b) 0 =
      .error .invalidIdError ∧
    delete_document ([] : Collection Book) "bad-id" =
      .error .invalidIdError ∧
    (∀ r : Bool × Collection Book,
      update_document ([] : Collection Book) "bad-id" (fun b => b) 0 ≠
        .ok r) ∧
    (∀ r : Bool × Collection Book,
      delete_document ([] : Collection Book) "bad-id" ≠ .ok r) := by
  refine ⟨rfl, rfl, rfl, ?_, ?_⟩ <;> intro r hr <;> cases hr

/-- C2 amended: only `get_by_id` swallows a malformed id into the "not
found" result (`None`); `update` and `delete` propagate the id parse error
(`bson.errors.InvalidId`) to the caller instead of reporting "not found". -/
theorem c2_malformed_id_amended [DecidableEq a] (coll : Collection a)
    (doc_id : String) (setter : a → a) (t : Time)
    (hbad : parseObjectId doc_id = none) :
    get_document_by_id coll doc_id = none ∧
    update_document coll doc_id setter t = .error .invalidIdError ∧
    delete_document coll doc_id = .error .invalidIdError := by
  refine ⟨?_, ?_, ?_⟩ <;> simp [get_document_by_id, update_document,
    delete_document, hbad]

/-- C2 amended witness at the concrete malformed id "not-a-valid-objectid!"
over a one-book store. -/
theorem c2_witness :
    get_document_by_id
        ([⟨"0123456789abcdef01234567",
            ⟨"T", "A", 12, 3, none, none⟩, 1, 1⟩] : Collection Book)
        "not-a-valid-objectid!" = none ∧
    update_document
        ([⟨"0123456789abcdef01234567",
            ⟨"T", "A", 12, 3, none, none⟩, 1, 1⟩] : Collection Book)
        "not-a-valid-objectid!" (fun b => b) 5 = .error .invalidIdError ∧
    delete_document
        ([⟨"0123456789abcdef01234567",
            ⟨"T", "A", 12, 3, none, none⟩, 1, 1⟩] : Collection Book)
        "not-a-valid-objectid!" = .error .invalidIdError :=
  c2_malformed_id_amended _ _ _ 5 (by decide)

/-! ## C3 -/

/-- The only exception `update_document` raises is the id parse error. -/
theorem update_document_error [DecidableEq a] (coll : Collection a)
    (doc_id : String) (setter : a → a) (t : Time) (e : PyError)
    (h : update_document coll doc_id setter t = .error e) :
    e = .invalidIdError := by
  cases hp : parseObjectId doc_id
  · simp only [update_document, hp, Except.error.injEq] at h
    exact h.symm
  · simp only [update_document, hp] at h
    exact Except.noConfusion h

/-- C3: a status-update request fails with the "Invalid status" client error
(HTTP 400) exactly when the target status is outside
{pending, processing, shipped, delivered, cancelled}; on that failure the
order collection is untouched; and every member of the set is accepted —
an `.ok` result carrying the new status — for any existing order whatever
its current status, as long as the wall clock moved since the order was
last written. -/
theorem c3_update_status_validation (orders : Collection Order)
    (order_id : String) (status : String) (t : Time) :
    ((update_order_status orders order_id status t).1 =
        .error (.httpEx 400 "Invalid status") ↔ status ∉ allowedStatuses) ∧
    (status ∉ allowedStatuses →
      (update_order_status orders order_id status t).2 = orders) ∧
    (∀ oid s, status ∈ allowedStatuses →
      parseObjectId order_id = some oid →
      find_one orders oid = some s →
      s.updated_at ≠ t →
      (update_order_status orders order_id status t).1 =
        .ok ⟨s.oid, { s.data with status := status },
          s.created_at, t⟩) := by
  refine ⟨⟨?_, ?_⟩, ?_, ?_⟩
  · intro hres hmem
    have hcont : allowedStatuses.contains status = true :=
      List.elem_eq_true_of_mem hmem
    rw [update_order_status, if_pos hcont] at hres
    cases hupd : update_document orders order_id
        (fun o => { o with status := status }) t with
    | error e =>
      have he := update_document_error _ _ _ _ _ hupd
      subst he
      simp only [hupd] at hres
      simp at hres
    | ok p =>
      obtain ⟨b, orders2⟩ := p
      cases b
      · simp only [hupd] at hres
        simp at hres
      · simp only [hupd] at hres
        cases hget : get_document_by_id orders2 order_id <;>
          simp only [hget] at hres <;> simp at hres
  · intro hmem
    rw [update_order_status,
      if_neg (fun hc => hmem (List.mem_of_elem_eq_true hc))]
  · intro hmem
    rw [update_order_status,
      if_neg (fun hc => hmem (List.mem_of_elem_eq_true hc))]
  · intro oid s hmem hparse hfind ht
    have hcont : allowedStatuses.contains status = true :=
      List.elem_eq_true_of_mem hmem
    have hne : (⟨s.oid, { s.data with status := status },
        s.created_at, t⟩ : Stored Order) ≠ s := by
      intro he
      exact ht (congrArg Stored.updated_at he).symm
    have hupd : update_document orders order_id
        (fun o => { o with status := status }) t =
        .ok (true, setFirst oid
          (fun u => ⟨u.oid, { u.data with status := status },
            u.created_at, t⟩) orders) := by
      simp only [update_document, hparse, hfind, Except.ok.injEq,
        Prod.mk.injEq, decide_eq_true_eq]
      exact ⟨hne, trivial⟩
    have hfind2 : find_one (setFirst oid
        (fun u => ⟨u.oid, { u.data with status := status },
          u.created_at, t⟩) orders) oid =
        some ⟨s.oid, { s.data with status := status },
          s.created_at, t⟩ := by
      rw [find_one_setFirst orders oid
        (fun u => ⟨u.oid, { u.data with status := status },
          u.created_at, t⟩) (fun u => rfl), hfind]
      rfl
    rw [update_order_status, if_pos hcont]
    simp only [hupd]
    simp only [get_document_by_id, hparse, hfind2]

/-- C3 witness: "archived" is rejected with the 400 client error and leaves
the store unchanged; "shipped" is accepted on an order currently
"delivered". -/
theorem c3_witness :
    ((update_order_status
        ([⟨"abcdefabcdefabcdefabcdef",
            ⟨"Bob", "bob@example.com", [⟨"b1", "B", 10, 1⟩], 10,
              "delivered", none⟩, 1, 1⟩] : Collection Order)
        "abcdefabcdefabcdefabcdef" "archived" 9).1 =
      .error (.httpEx 400 "Invalid status")) ∧
    ((update_order_status
        ([⟨"abcdefabcdefabcdefabcdef",
            ⟨"Bob", "bob@example.com", [⟨"b1", "B", 10, 1⟩], 10,
              "delivered", none⟩, 1, 1⟩] : Collection Order)
        "abcdefabcdefabcdefabcdef" "archived" 9).2 =
      [⟨"abcdefabcdefabcdefabcdef",
        ⟨"Bob", "bob@example.com", [⟨"b1", "B", 10, 1⟩], 10,
          "delivered", none⟩, 1, 1⟩]) ∧
    ((update_order_status
        ([⟨"abcdefabcdefabcdefabcdef",
            ⟨"Bob", "bob@example.com", [⟨"b1", "B", 10, 1⟩], 10,
              "delivered", none⟩, 1, 1⟩] : Collection Order)
        "abcdefabcdefabcdefabcdef" "shipped" 9).1 =
      .ok ⟨"abcdefabcdefabcdefabcdef",
        ⟨"Bob", "bob@example.com", [⟨"b1", "B", 10, 1⟩], 10,
          "shipped", none⟩, 1, 9⟩) := by
  refine ⟨?_, ?_, ?_⟩
  · exact (c3_update_status_validation _ _ "archived" 9).1.mpr (by decide)
  · exact (c3_update_status_validation _ _ "archived" 9).2.1 (by decide)
  · exact (c3_update_status_validation _ _ "shipped" 9).2.2
      "abcdefabcdefabcdefabcdef"
      ⟨"abcdefabcdefabcdefabcdef",
        ⟨"Bob", "bob@example.com", [⟨"b1", "B", 10, 1⟩], 10,
          "delivered", none⟩, 1, 1⟩
      (by decide) (by decide) rfl (by decide)

/-! ## C4 -/

/-- C4 counterexample: an order creation with an empty items list fails with
an uncaught pydantic validation error — FastAPI surfaces it as an HTTP 500
server fault, not a client-facing bad request — refuting the "surfaced as a
client-facing bad request" half of the claim (the store is indeed left
untouched). -/
theorem c4_counterexample :
    create_order (fun _ => true) []
        ⟨"Alice", "alice@example.com", [], none⟩
        "0123456789abcdef01234567" 0 = (.error .validationError, []) ∧
    PyError.isClientError .validationError = false :=
  ⟨rfl, rfl⟩

/-- C4 amended: a creation request with an empty items sequence fails with
the pydantic validation error raised by the `Order` constructor, which
escapes the handler (a server fault, not a client-facing "bad request"),
and no order document is persisted. -/
theorem c4_empty_items_amended (emailOk : String → Bool)
    (orders : Collection Order) (payload : OrderCreate) (freshOid : String)
    (t : Time) (hempty : payload.items = []) :
    create_order emailOk orders payload freshOid t =
      (.error .validationError, orders) ∧
    PyError.isClientError .validationError = false := by
  refine ⟨?_, rfl⟩
  rw [create_order]
  have hval : Order.validate emailOk
      ⟨payload.customer_name, payload.customer_email, payload.items,
        (payload.items.map (fun i => i.price * (i.quantity : ℚ))).sum,
        "pending", payload.notes⟩ = false := by
    simp [Order.validate, hempty]
  rw [if_neg (by simp [hval])]

/-- C4 amended witness at a concrete empty-items request over a non-empty
store. -/
theorem c4_witness :
    create_order (fun _ => true)
        ([⟨"abcdefabcdefabcdefabcdef",
            ⟨"Bob", "bob@example.com", [⟨"b1", "B", 10, 1⟩], 10,
              "pending", none⟩, 1, 1⟩] : Collection Order)
        ⟨"Carol", "carol@example.com", [], some "rush"⟩
        "0123456789abcdef01234567" 4 =
      (.error .validationError,
        [⟨"abcdefabcdefabcdefabcdef",
          ⟨"Bob", "bob@example.com", [⟨"b1", "B", 10, 1⟩], 10,
            "pending", none⟩, 1, 1⟩]) ∧
    PyError.isClientError .validationError = false :=
  c4_empty_items_amended (fun _ => true) _ _ _ 4 rfl

/-! ## C5 -/

/-- C5: dashboard revenue equals the sum of `total_amount` over the orders
whose status is not "cancelled" — in particular 0 when no such orders exist
(no error, no null), and 125 on the spec's three-order example. -/
theorem c5_dashboard_revenue (books : Collection Book)
    (orders : Collection Order) :
    (get_admin_stats books orders).revenue =
      ((orders.filter (fun o => !(o.data.status == "cancelled"))).map
        (fun o => o.data.total_amount)).sum ∧
    (get_admin_stats books []).revenue = 0 ∧
    (get_admin_stats []
      [⟨"aaaaaaaaaaaaaaaaaaaaaaaa",
        ⟨"N1", "n1@example.com", [⟨"b", "B", 100, 1⟩], 100,
          "pending", none⟩, 1, 1⟩,
       ⟨"bbbbbbbbbbbbbbbbbbbbbbbb",
        ⟨"N2", "n2@example.com", [⟨"b", "B", 50, 1⟩], 50,
          "cancelled", none⟩, 2, 2⟩,
       ⟨"cccccccccccccccccccccccc",
        ⟨"N3", "n3@example.com", [⟨"b", "B", 25, 1⟩], 25,
          "shipped", none⟩, 3, 3⟩]).revenue = 125 := by
  refine ⟨?_, ?_, ?_⟩
  · simp only [get_admin_stats, aggRevenueSum]
    by_cases he :
        (orders.filter (fun o => !(o.data.status == "cancelled"))).isEmpty
    · rw [if_pos he]
      rw [List.isEmpty_iff] at he
      rw [he]
      rfl
    · rw [if_neg he]
      rfl
  · rfl
  · simp [get_admin_stats, aggRevenueSum, List.filter]
    norm_num

/-! ## C6 -/

/-- C6: when the email matches a stored admin user, a password that fails
verification yields the 401 "Invalid credentials" error regardless of
`is_active`, and a verified password on an inactive account yields the 403
"User is inactive" error — the credential check runs first. -/
theorem c6_login_failures (verify : String → String → Bool)
    (admins : Collection AdminUserDoc) (email password : String)
    (user : Stored AdminUserDoc)
    (hfind : find_one_by_email admins email = some user) :
    (verify password user.data.password_hash = false →
      admin_login verify admins email password =
        .error (.httpEx 401 "Invalid credentials")) ∧
    (verify password user.data.password_hash = true →
      user.data.is_active = false →
      admin_login verify admins email password =
        .error (.httpEx 403 "User is inactive")) := by
  constructor
  · intro hv
    simp [admin_login, hfind, hv]
  · intro hv hact
    simp [admin_login, hfind, hv, hact]

/-- C6 witness: wrong password on an active admin gives 401; correct
password on an inactive staff account gives 403 inactive. -/
theorem c6_witness :
    admin_login (fun p h => p == h)
      [⟨"aaaaaaaaaaaaaaaaaaaaaaaa",
        ⟨"Admin", "admin@example.com", "secret", "admin", true⟩, 0, 0⟩]
      "admin@example.com" "wrong" =
      .error (.httpEx 401 "Invalid credentials") ∧
    admin_login (fun p h => p == h)
      [⟨"bbbbbbbbbbbbbbbbbbbbbbbb",
        ⟨"Ina", "ina@example.com", "pw", "staff", false⟩, 0, 0⟩]
      "ina@example.com" "pw" = .error (.httpEx 403 "User is inactive") := by
  constructor
  · exact (c6_login_failures (fun p h => p == h)
      [⟨"aaaaaaaaaaaaaaaaaaaaaaaa",
        ⟨"Admin", "admin@example.com", "secret", "admin", true⟩, 0, 0⟩]
      "admin@example.com" "wrong"
      ⟨"aaaaaaaaaaaaaaaaaaaaaaaa",
        ⟨"Admin", "admin@example.com", "secret", "admin", true⟩, 0, 0⟩
      rfl).1 rfl
  · exact (c6_login_failures (fun p h => p == h)
      [⟨"bbbbbbbbbbbbbbbbbbbbbbbb",
        ⟨"Ina", "ina@example.com", "pw", "staff", false⟩, 0, 0⟩]
      "ina@example.com" "pw"
      ⟨"bbbbbbbbbbbbbbbbbbbbbbbb",
        ⟨"Ina", "ina@example.com", "pw", "staff", false⟩, 0, 0⟩
      rfl).2 rfl rfl

/-! ## C7 -/

/-- C7: a partial book update on an existing book (well-formed id, clock
strictly past the stored `updated_at`) succeeds and the returned document
carries the merged data `p.applyTo s.data` — every supplied field at its
new value, every unsupplied field unchanged — with `created_at` untouched
and `updated_at` strictly greater than `created_at`. -/
theorem c7_partial_update_frame (books : Collection Book)
    (book_id oid : String) (s : Stored Book) (p : BookUpdate) (t : Time)
    (hparse : parseObjectId book_id = some oid)
    (hfind : find_one books oid = some s)
    (hinv : s.created_at ≤ s.updated_at)
    (ht : s.updated_at < t) :
    (update_book books book_id p t).1 =
      .ok ⟨s.oid, p.applyTo s.data, s.created_at, t⟩ ∧
    (p.applyTo s.data).title = p.title.getD s.data.title ∧
    (p.applyTo s.data).author = p.author.getD s.data.author ∧
    (p.applyTo s.data).price = p.price.getD s.data.price ∧
    (p.applyTo s.data).stock = p.stock.getD s.data.stock ∧
    (∀ v, p.description = some v →
      (p.applyTo s.data).description = some v) ∧
    (p.description = none →
      (p.applyTo s.data).description = s.data.description) ∧
    (∀ v, p.cover_url = some v → (p.applyTo s.data).cover_url = some v) ∧
    (p.cover_url = none → (p.applyTo s.data).cover_url = s.data.cover_url) ∧
    s.created_at < t := by
  have hne : (⟨s.oid, p.applyTo s.data, s.created_at, t⟩ : Stored Book)
      ≠ s := by
    intro he
    exact ht.ne' (congrArg Stored.updated_at he)
  have hupd : update_document books book_id p.applyTo t =
      .ok (true, setFirst oid
        (fun u => ⟨u.oid, p.applyTo u.data, u.created_at, t⟩) books) := by
    simp only [update_document, hparse, hfind, Except.ok.injEq,
      Prod.mk.injEq, decide_eq_true_eq]
    exact ⟨hne, trivial⟩
  have hfind2 : find_one (setFirst oid
      (fun u => ⟨u.oid, p.applyTo u.data, u.created_at, t⟩) books) oid =
      some ⟨s.oid, p.applyTo s.data, s.created_at, t⟩ := by
    rw [find_one_setFirst books oid
      (fun u => ⟨u.oid, p.applyTo u.data, u.created_at, t⟩)
      (fun u => rfl), hfind]
    rfl
  refine ⟨?_, rfl, rfl, rfl, rfl, ?_, ?_, ?_, ?_,
    lt_of_le_of_lt hinv ht⟩
  · rw [update_book]
    simp only [hupd]
    simp only [get_document_by_id, hparse, hfind2]
  · intro v hv
    simp [BookUpdate.applyTo, hv]
  · intro hv
    simp [BookUpdate.applyTo, hv]
  · intro v hv
    simp [BookUpdate.applyTo, hv]
  · intro hv
    simp [BookUpdate.applyTo, hv]

/-- C7 witness: updating only the price of a stored book returns a document
with the new price, all other fields untouched, the original `created_at`,
and `updated_at` strictly above `created_at`. -/
theorem c7_witness :
    (update_book
      ([⟨"0123456789abcdef01234567",
          ⟨"Dune", "Herbert", 20, 3, none, none⟩, 1, 2⟩] :
        Collection Book)
      "0123456789abcdef01234567"
      ⟨none, none, some 9.99, none, none, none⟩ 5).1 =
      .ok ⟨"0123456789abcdef01234567",
        ⟨"Dune", "Herbert", 9.99, 3, none, none⟩, 1, 5⟩ ∧
    (1 : Time) < 5 := by
  have h :=
    c7_partial_update_frame
      [⟨"0123456789abcdef01234567", ⟨"Dune", "Herbert", 20, 3, none, none⟩,
        1, 2⟩]
      "0123456789abcdef01234567" "0123456789abcdef01234567"
      ⟨"0123456789abcdef01234567", ⟨"Dune", "Herbert", 20, 3, none, none⟩,
        1, 2⟩
      ⟨none, none, some 9.99, none, none, none⟩ 5
      (by decide) rfl (by decide) (by decide)
  exact ⟨h.1, h.2.2.2.2.2.2.2.2.2⟩

/-! ## C8 -/

/-- Documents surviving a delete were already in the store. -/
theorem mem_deleteFirst (coll : Collection a) (oid : String) (x : Stored a)
    (hx : x ∈ deleteFirst oid coll) : x ∈ coll := by
  induction coll with
  | nil => simp [deleteFirst] at hx
  | cons s rest ih =>
    by_cases h : s.oid = oid
    · rw [deleteFirst, if_pos (by simpa using h)] at hx
      exact List.mem_cons_of_mem _ hx
    · rw [deleteFirst, if_neg (by simpa using h)] at hx
      rcases List.mem_cons.mp hx with h1 | h1
      · simp [h1]
      · exact List.mem_cons_of_mem _ (ih h1)

/-- C8: every Document Store Adapter operation preserves the invariant
`created_at ≤ updated_at` over all persisted documents (given a wall clock
not predating any document's creation), and `create` stamps both timestamps
of the new document with the same instant. -/
theorem c8_timestamp_invariant [DecidableEq a] (op : DbOp a)
    (coll : Collection a) (hInv : TimestampInv coll)
    (hT : op.timeOK coll) :
    TimestampInv (op.applyOp coll) ∧
    (∀ (data : a) freshOid t,
      (create_document coll data freshOid t).2 =
        coll ++ [⟨freshOid, data, t, t⟩]) := by
  refine ⟨?_, fun _ _ _ => rfl⟩
  cases op with
  | create d oid t =>
    intro x hx
    simp only [DbOp.applyOp, create_document] at hx
    rcases List.mem_append.mp hx with h | h
    · exact hInv x h
    · rw [List.mem_singleton] at h
      subst h
      exact le_refl t
  | update doc_id f t =>
    simp only [DbOp.applyOp]
    cases hp : parseObjectId doc_id with
    | none =>
      simp only [update_document, hp]
      exact hInv
    | some oid =>
      simp only [update_document, hp]
      intro x hx
      rcases mem_setFirst coll oid _ x hx with h | ⟨u, hu, hxeq⟩
      · exact hInv x h
      · subst hxeq
        exact hT u hu
  | delete doc_id =>
    simp only [DbOp.applyOp]
    cases hp : parseObjectId doc_id with
    | none =>
      simp only [delete_document, hp]
      exact hInv
    | some oid =>
      simp only [delete_document, hp]
      intro x hx
      exact hInv x (mem_deleteFirst coll oid x hx)

/-- C8 witness: an update at instant 5 over a store created at instant 1
keeps `created_at ≤ updated_at` for every stored document. -/
theorem c8_witness :
    TimestampInv (DbOp.applyOp
      (DbOp.update "0123456789abcdef01234567"
        (fun b => { b with stock := 7 }) 5)
      ([⟨"0123456789abcdef01234567",
          (⟨"Dune", "Herbert", 20, 3, none, none⟩ : Book), 1, 2⟩])) :=
  (c8_timestamp_invariant
    (DbOp.update "0123456789abcdef01234567"
      (fun b => { b with stock := 7 }) 5)
    [⟨"0123456789abcdef01234567",
        (⟨"Dune", "Herbert", 20, 3, none, none⟩ : Book), 1, 2⟩]
    (by intro s hs
        rw [List.mem_singleton] at hs
        subst hs
        decide)
    (by intro s hs
        rw [List.mem_singleton] at hs
        subst hs
        decide)).1

/-! ## C9 -/

/-- C9: every successful login for a found user returns exactly a token
binding that user's id (`sub`) and role, and a profile built from the
user's id, name, email and role — the `AdminProfile` type has exactly the
fields id, name, email, role, and every component of the response is one of
those four values, so `password_hash` appears in no component of the output
for any input. -/
theorem c9_login_output (verify : String → String → Bool)
    (admins : Collection AdminUserDoc) (email password : String)
    (r : LoginResponse) (user : Stored AdminUserDoc)
    (hfind : find_one_by_email admins email = some user)
    (h : admin_login verify admins email password = .ok r) :
    r.token = ⟨user.oid, user.data.role⟩ ∧
    r.profile = ⟨user.oid, user.data.name, user.data.email,
      user.data.role⟩ := by
  simp only [admin_login, hfind] at h
  split_ifs at h with h1 h2 h3
  all_goals first
    | exact Except.noConfusion h
    | (injection h with h4
       subst h4
       exact ⟨rfl, rfl⟩)

/-- C9 witness: a concrete successful login returning the expected token
claims and public profile, with no trace of the stored hash "secret". -/
theorem c9_witness :
    (⟨⟨"aaaaaaaaaaaaaaaaaaaaaaaa", "admin"⟩,
      ⟨"aaaaaaaaaaaaaaaaaaaaaaaa", "Admin", "admin@example.com",
        "admin"⟩⟩ : LoginResponse).token =
      ⟨"aaaaaaaaaaaaaaaaaaaaaaaa", "admin"⟩ ∧
    (⟨⟨"aaaaaaaaaaaaaaaaaaaaaaaa", "admin"⟩,
      ⟨"aaaaaaaaaaaaaaaaaaaaaaaa", "Admin", "admin@example.com",
        "admin"⟩⟩ : LoginResponse).profile =
      ⟨"aaaaaaaaaaaaaaaaaaaaaaaa", "Admin", "admin@example.com",
        "admin"⟩ :=
  c9_login_output (fun p h => p == h)
    [⟨"aaaaaaaaaaaaaaaaaaaaaaaa",
      ⟨"Admin", "admin@example.com", "secret", "admin", true⟩, 0, 0⟩]
    "admin@example.com" "secret"
    ⟨⟨"aaaaaaaaaaaaaaaaaaaaaaaa", "admin"⟩,
      ⟨"aaaaaaaaaaaaaaaaaaaaaaaa", "Admin", "admin@example.com",
        "admin"⟩⟩
    ⟨"aaaaaaaaaaaaaaaaaaaaaaaa",
      ⟨"Admin", "admin@example.com", "secret", "admin", true⟩, 0, 0⟩
    rfl rfl

/-! ## C10 -/

/-- C10: on a well-formed id resolving to an existing book, an update whose
partial changes no data field (in particular the all-empty partial) still
reports success — `updated_at` is unconditionally refreshed, so the
document counts as modified whenever the clock moved — and `update_book`
returns the book rather than the 404 "not found". -/
theorem c10_empty_update_success (books : Collection Book)
    (book_id oid : String) (s : Stored Book) (p : BookUpdate) (t : Time)
    (hparse : parseObjectId book_id = some oid)
    (hfind : find_one books oid = some s)
    (happ : p.applyTo s.data = s.data)
    (ht : s.updated_at ≠ t) :
    (update_book books book_id p t).1 =
      .ok ⟨s.oid, s.data, s.created_at, t⟩ := by
  have hne : (⟨s.oid, p.applyTo s.data, s.created_at, t⟩ : Stored Book)
      ≠ s := by
    rw [happ]
    intro he
    exact ht (congrArg Stored.updated_at he).symm
  have hupd : update_document books book_id p.applyTo t =
      .ok (true, setFirst oid
        (fun u => ⟨u.oid, p.applyTo u.data, u.created_at, t⟩) books) := by
    simp only [update_document, hparse, hfind, Except.ok.injEq,
      Prod.mk.injEq, decide_eq_true_eq]
    exact ⟨hne, trivial⟩
  have hfind2 : find_one (setFirst oid
      (fun u => ⟨u.oid, p.applyTo u.data, u.created_at, t⟩) books) oid =
      some ⟨s.oid, p.applyTo s.data, s.created_at, t⟩ := by
    rw [find_one_setFirst books oid
      (fun u => ⟨u.oid, p.applyTo u.data, u.created_at, t⟩)
      (fun u => rfl), hfind]
    rfl
  rw [update_book]
  simp only [hupd]
  simp only [get_document_by_id, hparse, hfind2]
  rw [happ]

/-- C10 witness: updating an existing book with the all-empty partial at a
later instant returns the book with only `updated_at` refreshed. -/
theorem c10_witness :
    (update_book
      ([⟨"0123456789abcdef01234567",
          ⟨"Dune", "Herbert", 20, 3, none, none⟩, 1, 2⟩] : Collection Book)
      "0123456789abcdef01234567"
      ⟨none, none, none, none, none, none⟩ 9).1 =
      .ok ⟨"0123456789abcdef01234567",
        ⟨"Dune", "Herbert", 20, 3, none, none⟩, 1, 9⟩ :=
  c10_empty_update_success
    [⟨"0123456789abcdef01234567",
        ⟨"Dune", "Herbert", 20, 3, none, none⟩, 1, 2⟩]
    "0123456789abcdef01234567" "0123456789abcdef01234567"
    ⟨"0123456789abcdef01234567", ⟨"Dune", "Herbert", 20, 3, none, none⟩,
      1, 2⟩
    ⟨none, none, none, none, none, none⟩ 9
    (by decide) rfl rfl (by decide)

end Bookstore
